import Mathlib

/-!
Verification of the trace-workload generator `examples/send_traces.py`.

The script builds nested OTEL span trees and sends them to a collector.
We embed it shallowly:

* Wall-clock time is a rational number of seconds; the only operations that
  advance time are the `time.sleep` calls, so a builder threads a clock
  through its sleeps (the instants between sleeps are identified, which is
  the idealisation that non-sleep work takes zero time).
* Randomness is made explicit: every `random.uniform(a, b)` call consumes a
  unit draw `u` and yields `a + (b - a) * u` (which is how the Python
  library computes it); `random.random()` consumes a unit draw directly;
  `random.choice(l)` consumes an index into `l`.
* A span records its name, parent, opening and closing instants, attribute
  list (in `set_attribute` order), status and recorded exceptions.  Spans
  are handed to the exporter in closing order, so a builder returns the
  list of closed spans in the order the `with` blocks exit (root last).
-/

/-- A scalar OTEL attribute value: string, integer or boolean. -/
inductive AttrValue
  | str (s : String)
  | int (n : Int)
  | bool (b : Bool)
deriving DecidableEq

/-- Span status: default OK, or ERROR with a message
(`trace.Status(trace.StatusCode.ERROR, msg)`). -/
inductive SpanStatus
  | ok
  | error (message : String)
deriving DecidableEq

/-- A closed span: name, parent span name (`none` for a root), opening and
closing instants in seconds, attributes in insertion order, status, and the
descriptions passed to `record_exception`. -/
structure Span where
  name : String
  parent : Option String
  startTime : ℚ
  endTime : ℚ
  attributes : List (String × AttrValue)
  status : SpanStatus
  recordedExceptions : List String
deriving DecidableEq

/-- Look up an attribute by key (first match, as keys are unique). -/
def getAttr (s : Span) (k : String) : Option AttrValue :=
  (s.attributes.find? (fun p => p.1 == k)).map Prod.snd

/-- `random.uniform a b` applied to a unit draw `u`:
`a + (b - a) * u`, which lies in `[a, b]` whenever `u ∈ [0, 1]` and `a ≤ b`. -/
def uniform (a b u : ℚ) : ℚ := a + (b - a) * u

/-- `random.choice l` applied to an index draw. -/
def choice {α : Type} (l : List α) (i : Fin l.length) : α := l.get i

/-- The random draws one `simulate_api_call()` run consumes, in order:
the unit draw of the db-query sleep, the index draw of
`random.choice([True, False])`, the unit draw of the cache-lookup sleep,
and the `random.random()` draw deciding error injection. -/
structure ApiDraws where
  uDb : ℚ
  hitIdx : Fin 2
  uCache : ℚ
  uErr : ℚ

/-- The random draws one `simulate_background_job()` run consumes:
unit draws of the fetch, process and store sleeps. -/
structure JobDraws where
  uFetch : ℚ
  uProcess : ℚ
  uStore : ℚ

/-- The db-query child (src lines 47-50): opened at `t0`, attributes
`db.system` and `db.statement` set before the sleep, closed at `t1`. -/
def dbSpan (t0 t1 : ℚ) : Span where
  name := "db-query"
  parent := some "api-request"
  startTime := t0
  endTime := t1
  attributes := [("db.system", .str "postgresql"),
                 ("db.statement", .str "SELECT * FROM users")]
  status := .ok
  recordedExceptions := []

/-- The cache-lookup child (src lines 52-55): opened at `t0`, the boolean
`cache.hit` attribute set before the sleep, closed at `t1`. -/
def cacheSpan (hit : Bool) (t0 t1 : ℚ) : Span where
  name := "cache-lookup"
  parent := some "api-request"
  startTime := t0
  endTime := t1
  attributes := [("cache.hit", .bool hit)]
  status := .ok
  recordedExceptions := []

/-- The attributes set on the api-request root (src lines 42-44). -/
def apiRootAttrs : List (String × AttrValue) :=
  [("http.method", .str "GET"),
   ("http.url", .str "/api/users"),
   ("http.status_code", .int 200)]

/-- The api-request root span (src lines 41-60): opened at `t0`, closed at
`t1`; after both children close, if `random.random() < 0.2` its status is
set to ERROR "Random error" and the exception "Something went wrong" is
recorded, otherwise its status is left OK. -/
def apiRootSpan (uErr : ℚ) (t0 t1 : ℚ) : Span where
  name := "api-request"
  parent := none
  startTime := t0
  endTime := t1
  attributes := apiRootAttrs
  status := if uErr < 1/5 then .error "Random error" else .ok
  recordedExceptions := if uErr < 1/5 then ["Something went wrong"] else []

/-- The api-request root as it closes when a `KeyboardInterrupt` unwinds the
`with` block before the error-injection lines run: attributes are already
set, status is still the default. -/
def apiRootCut (t0 t1 : ℚ) : Span where
  name := "api-request"
  parent := none
  startTime := t0
  endTime := t1
  attributes := apiRootAttrs
  status := .ok
  recordedExceptions := []

/-- `simulate_api_call()` (src lines 39-60) started at clock `t0` with draws
`d`: the db-query child sleeps `random.uniform(0.01, 0.1)`, the cache-lookup
child sleeps `random.uniform(0.001, 0.01)`, then error injection on the
root.  Returns the closed spans in closing order (root last) and the final
clock. -/
def simulate_api_call (t0 : ℚ) (d : ApiDraws) : List Span × ℚ :=
  let t1 := t0 + uniform (1/100) (1/10) d.uDb
  let t2 := t1 + uniform (1/1000) (1/100) d.uCache
  ([dbSpan t0 t1,
    cacheSpan (choice [true, false] d.hitIdx) t1 t2,
    apiRootSpan d.uErr t0 t2], t2)

/-- The background-job root span (src lines 64-65): carries the
`job.name` attribute, never touched by error injection. -/
def jobRootSpan (t0 t1 : ℚ) : Span where
  name := "background-job"
  parent := none
  startTime := t0
  endTime := t1
  attributes := [("job.name", .str "data-processing")]
  status := .ok
  recordedExceptions := []

/-- A step child of the background job (src lines 68-77): no attributes,
just a named span around one sleep. -/
def stepSpan (nm : String) (t0 t1 : ℚ) : Span where
  name := nm
  parent := some "background-job"
  startTime := t0
  endTime := t1
  attributes := []
  status := .ok
  recordedExceptions := []

/-- `simulate_background_job()` (src lines 62-77) started at clock `t0`:
three sequential children fetch-data, process-data, store-results sleeping
`random.uniform(0.1, 0.3)`, `random.uniform(0.2, 0.5)` and
`random.uniform(0.05, 0.15)` respectively.  Returns the closed spans in
closing order (root last) and the final clock. -/
def simulate_background_job (t0 : ℚ) (d : JobDraws) : List Span × ℚ :=
  let t1 := t0 + uniform (1/10) (3/10) d.uFetch
  let t2 := t1 + uniform (1/5) (1/2) d.uProcess
  let t3 := t2 + uniform (1/20) (3/20) d.uStore
  ([stepSpan "fetch-data" t0 t1,
    stepSpan "process-data" t1 t2,
    stepSpan "store-results" t2 t3,
    jobRootSpan t0 t3], t3)

/-!
The driver loop (src lines 84-100).  Each `RUNNING` iteration draws
`random.random()`, runs `simulate_api_call()` when the draw is below `0.7`
and `simulate_background_job()` otherwise, then sleeps
`random.uniform(0.5, 2)`.  The loop only exits when an exception escapes;
`except KeyboardInterrupt` (and only that clause) then calls
`provider.shutdown()`.

A `KeyboardInterrupt` is delivered at some point in wall-clock time, which
in this script is almost surely inside one of the `time.sleep` calls
(sleeps account for essentially all of an iteration's duration); the
`with` context managers then close every span that is already open while
the exception unwinds — `opentelemetry.trace.use_span` catches only
`Exception` for status recording but its `finally` clause always ends the
span — and spans whose `with` statement has not been reached are never
created.  We model this by numbering the sleeps of an iteration
(api-call: 0 = db, 1 = cache, 2 = pacing; background-job: 0 = fetch,
1 = process, 2 = store, 3 = pacing) and letting an interrupt arrive `e`
seconds into sleep number `k`.
-/

/-- One api-call iteration of the loop body with an optional interrupt
`(k, e)`: `KeyboardInterrupt` delivered `e` seconds into sleep `k`.
Returns the spans handed to the exporter in closing order, the final
clock, and whether the iteration was interrupted.  A sleep index past the
pacing sleep means no interrupt landed inside this iteration. -/
def apiIterationCancel (t0 : ℚ) (d : ApiDraws) (uPace : ℚ)
    (c : Option (ℕ × ℚ)) : List Span × ℚ × Bool :=
  match c with
  | some (0, e) =>
      ([dbSpan t0 (t0 + e), apiRootCut t0 (t0 + e)], (t0 + e, true))
  | some (1, e) =>
      let t1 := t0 + uniform (1/100) (1/10) d.uDb
      ([dbSpan t0 t1,
        cacheSpan (choice [true, false] d.hitIdx) t1 (t1 + e),
        apiRootCut t0 (t1 + e)], (t1 + e, true))
  | some (2, e) =>
      let (ss, t) := simulate_api_call t0 d
      (ss, (t + e, true))
  | _ =>
      let (ss, t) := simulate_api_call t0 d
      (ss, (t + uniform (1/2) 2 uPace, false))

/-- One background-job iteration of the loop body with an optional
interrupt `(k, e)`, as in `apiIterationCancel`. -/
def jobIterationCancel (t0 : ℚ) (d : JobDraws) (uPace : ℚ)
    (c : Option (ℕ × ℚ)) : List Span × ℚ × Bool :=
  match c with
  | some (0, e) =>
      ([stepSpan "fetch-data" t0 (t0 + e), jobRootSpan t0 (t0 + e)],
       (t0 + e, true))
  | some (1, e) =>
      let t1 := t0 + uniform (1/10) (3/10) d.uFetch
      ([stepSpan "fetch-data" t0 t1,
        stepSpan "process-data" t1 (t1 + e),
        jobRootSpan t0 (t1 + e)], (t1 + e, true))
  | some (2, e) =>
      let t1 := t0 + uniform (1/10) (3/10) d.uFetch
      let t2 := t1 + uniform (1/5) (1/2) d.uProcess
      ([stepSpan "fetch-data" t0 t1,
        stepSpan "process-data" t1 t2,
        stepSpan "store-results" t2 (t2 + e),
        jobRootSpan t0 (t2 + e)], (t2 + e, true))
  | some (3, e) =>
      let (ss, t) := simulate_background_job t0 d
      (ss, (t + e, true))
  | _ =>
      let (ss, t) := simulate_background_job t0 d
      (ss, (t + uniform (1/2) 2 uPace, false))

/-- The random draws one loop iteration consumes: the scenario-selection
draw of `random.random()`, the draws of whichever builder runs, and the
unit draw of the pacing sleep `random.uniform(0.5, 2)`. -/
structure IterDraws where
  uSel : ℚ
  api : ApiDraws
  job : JobDraws
  uPace : ℚ

/-- One loop-body iteration (src lines 85-94) with an optional interrupt:
api-call scenario iff `uSel < 0.7`, background-job otherwise. -/
def iterationCancel (t0 : ℚ) (d : IterDraws) (c : Option (ℕ × ℚ)) :
    List Span × ℚ × Bool :=
  if d.uSel < 7/10 then apiIterationCancel t0 d.api d.uPace c
  else jobIterationCancel t0 d.job d.uPace c

/-- One uninterrupted loop-body iteration: handed-off spans and final
clock. -/
def iteration (t0 : ℚ) (d : IterDraws) : List Span × ℚ :=
  ((iterationCancel t0 d none).1, (iterationCancel t0 d none).2.1)

/-- The first `n` uninterrupted iterations of the loop, started at clock
`t0`, with iteration `i` consuming draws `draws i`: all spans handed off,
in handoff order, and the clock afterwards. -/
def runIters (t0 : ℚ) (draws : ℕ → IterDraws) : ℕ → List Span × ℚ
  | 0 => ([], t0)
  | n + 1 =>
      let (ss, t) := runIters t0 draws n
      let (ss2, t2) := iteration t (draws n)
      (ss ++ ss2, t2)

/-- What kind of exception escapes the loop body: `KeyboardInterrupt`
(matched by the script's only `except` clause) or any other exception. -/
inductive ExcKind
  | keyboardInterrupt
  | other
deriving DecidableEq

/-- How a run of the infinite loop ends: an exception of kind `kind` is
raised `elapsed` seconds into sleep number `sleep` of iteration number
`iter` (iterations before it ran to completion). -/
structure LoopExit where
  iter : ℕ
  sleep : ℕ
  elapsed : ℚ
  kind : ExcKind

/-- Modelled from the spec: the outcome of the exporter collaborator's
`flush() -> Result<void, DeliveryError>`.  The exporter (OTLP
`BatchSpanProcessor` / `provider.shutdown()`) is outside this repository;
the spec requires flush to report whether any handed-off spans were
lost. -/
inductive FlushOutcome
  | delivered
  | lost (err : String)
deriving DecidableEq

/-- The observable outcome of one terminated run of `__main__`: every span
handed to the exporter, how many times `provider.shutdown()` ran, the
flush outcome visible to the caller (`none` when flush never ran), and
whether the driver reached its orderly STOPPED state. -/
structure MainResult where
  spans : List Span
  shutdownCalls : ℕ
  flushReport : Option FlushOutcome
  reachedStopped : Bool
deriving DecidableEq

/-- A terminated run of `__main__` (src lines 84-100): `ex.iter` complete
iterations, then an exception lands in the final iteration at
`(ex.sleep, ex.elapsed)`; a `KeyboardInterrupt` is caught and
`provider.shutdown()` runs once (its outcome `fo` is the exporter
collaborator's answer), while any other exception escapes the `try` and
the process dies with no shutdown. -/
def mainRun (t0 : ℚ) (draws : ℕ → IterDraws) (ex : LoopExit)
    (fo : FlushOutcome) : MainResult :=
  let (ss, t) := runIters t0 draws ex.iter
  let ss2 := (iterationCancel t (draws ex.iter) (some (ex.sleep, ex.elapsed))).1
  match ex.kind with
  | .keyboardInterrupt =>
      { spans := ss ++ ss2, shutdownCalls := 1,
        flushReport := some fo, reachedStopped := true }
  | .other =>
      { spans := ss ++ ss2, shutdownCalls := 0,
        flushReport := none, reachedStopped := false }

/-- Sample api-call draws: all sleeps at their lower bound, a cache hit,
no error injection (`uErr = 1 ≥ 0.2`). -/
def apiDraws0 : ApiDraws := ⟨0, 0, 0, 1⟩

/-- Sample background-job draws: all sleeps at their lower bound. -/
def jobDraws0 : JobDraws := ⟨0, 0, 0⟩

/-- Sample iteration draws: the api-call scenario is selected
(`uSel = 0 < 0.7`) and the pacing sleep is at its lower bound. -/
def iterDraws0 : IterDraws := ⟨0, apiDraws0, jobDraws0, 0⟩

/-- `random.uniform a b` lies in `[a, b]` when the unit draw does. -/
theorem uniform_mem (a b u : ℚ) (hab : a ≤ b) (h0 : 0 ≤ u) (h1 : u ≤ 1) :
    a ≤ uniform a b u ∧ uniform a b u ≤ b := by
  unfold uniform
  constructor <;> nlinarith

/-- Claim C1: every api-call tree has exactly the two children db-query and
cache-lookup, built in that order (the first closes before the second
opens), and containment holds: the root opens no later than each child and
each child closes no later than the root. -/
theorem api_call_tree_shape (t0 : ℚ) (d : ApiDraws)
    (h1 : 0 ≤ d.uDb) (h2 : 0 ≤ d.uCache) :
    ∃ c1 c2 r, (simulate_api_call t0 d).1 = [c1, c2, r] ∧
      c1.name = "db-query" ∧ c2.name = "cache-lookup" ∧
      r.name = "api-request" ∧ r.parent = none ∧
      c1.parent = some "api-request" ∧ c2.parent = some "api-request" ∧
      c1.endTime ≤ c2.startTime ∧
      r.startTime ≤ c1.startTime ∧ c1.endTime ≤ r.endTime ∧
      r.startTime ≤ c2.startTime ∧ c2.endTime ≤ r.endTime := by
  refine ⟨_, _, _, rfl, rfl, rfl, rfl, rfl, rfl, rfl, ?_, ?_, ?_, ?_, ?_⟩ <;>
    simp only [dbSpan, cacheSpan, apiRootSpan, uniform] <;> nlinarith

/-- Witness for C1 at `t0 = 0` and the sample draws. -/
theorem api_call_tree_shape_witness :
    ∃ c1 c2 r, (simulate_api_call 0 apiDraws0).1 = [c1, c2, r] ∧
      c1.name = "db-query" ∧ c2.name = "cache-lookup" ∧
      r.name = "api-request" ∧ r.parent = none ∧
      c1.parent = some "api-request" ∧ c2.parent = some "api-request" ∧
      c1.endTime ≤ c2.startTime ∧
      r.startTime ≤ c1.startTime ∧ c1.endTime ≤ r.endTime ∧
      r.startTime ≤ c2.startTime ∧ c2.endTime ≤ r.endTime :=
  api_call_tree_shape 0 apiDraws0 (by norm_num [apiDraws0])
    (by norm_num [apiDraws0])

/-- Claim C2: the api-call root is marked ERROR with the fixed message
"Random error" and the recorded exception "Something went wrong" exactly
when the error draw is below 0.2, and OK otherwise; its status is always
one of OK and that ERROR. -/
theorem api_root_status (t0 : ℚ) (d : ApiDraws) :
    ∃ c1 c2 r, (simulate_api_call t0 d).1 = [c1, c2, r] ∧
      r.name = "api-request" ∧
      r.status = (if d.uErr < 1/5 then SpanStatus.error "Random error"
                  else SpanStatus.ok) ∧
      r.recordedExceptions
        = (if d.uErr < 1/5 then ["Something went wrong"] else []) ∧
      (r.status = .ok ∨ r.status = .error "Random error") := by
  refine ⟨_, _, _, rfl, rfl, rfl, rfl, ?_⟩
  by_cases h : d.uErr < 1/5
  · exact Or.inr (by simp only [apiRootSpan]; rw [if_pos h])
  · exact Or.inl (by simp only [apiRootSpan]; rw [if_neg h])

/-- Claim C9: the db-query child's duration lies in [10ms, 100ms], the
cache-lookup child's duration lies in [1ms, 10ms], and the cache-hit
boolean is `random.choice` over the two-element list [true, false], of
whose two equally likely indices exactly one yields true. -/
theorem api_children_durations (t0 : ℚ) (d : ApiDraws)
    (hd0 : 0 ≤ d.uDb) (hd1 : d.uDb ≤ 1)
    (hc0 : 0 ≤ d.uCache) (hc1 : d.uCache ≤ 1) :
    ∃ c1 c2 r, (simulate_api_call t0 d).1 = [c1, c2, r] ∧
      1/100 ≤ c1.endTime - c1.startTime ∧ c1.endTime - c1.startTime ≤ 1/10 ∧
      1/1000 ≤ c2.endTime - c2.startTime ∧ c2.endTime - c2.startTime ≤ 1/100 ∧
      getAttr c2 "cache.hit" = some (.bool (choice [true, false] d.hitIdx)) ∧
      ((List.finRange 2).countP fun i => choice [true, false] i) = 1 ∧
      (List.finRange 2).length = 2 := by
  obtain ⟨hdb1, hdb2⟩ := uniform_mem (1/100) (1/10) d.uDb (by norm_num) hd0 hd1
  obtain ⟨hca1, hca2⟩ :=
    uniform_mem (1/1000) (1/100) d.uCache (by norm_num) hc0 hc1
  refine ⟨_, _, _, rfl, ?_, ?_, ?_, ?_, ?_, by decide, by decide⟩ <;>
    simp only [dbSpan, cacheSpan, getAttr, List.find?, add_sub_cancel_left] <;>
    first
      | linarith
      | simp

/-- Witness for C9 at `t0 = 0` and the sample draws. -/
theorem api_children_durations_witness :
    ∃ c1 c2 r, (simulate_api_call 0 apiDraws0).1 = [c1, c2, r] ∧
      1/100 ≤ c1.endTime - c1.startTime ∧ c1.endTime - c1.startTime ≤ 1/10 ∧
      1/1000 ≤ c2.endTime - c2.startTime ∧ c2.endTime - c2.startTime ≤ 1/100 ∧
      getAttr c2 "cache.hit"
        = some (.bool (choice [true, false] apiDraws0.hitIdx)) ∧
      ((List.finRange 2).countP fun i => choice [true, false] i) = 1 ∧
      (List.finRange 2).length = 2 :=
  api_children_durations 0 apiDraws0 (by norm_num [apiDraws0])
    (by norm_num [apiDraws0]) (by norm_num [apiDraws0])
    (by norm_num [apiDraws0])

/-- Claim C4: every background-job tree has a root carrying the job-name
attribute and exactly the three sequential children fetch-data,
process-data, store-results (the spec's fetch/process/store steps), with
durations in [100,300]ms, [200,500]ms and [50,150]ms respectively, and no
span of the tree carries an error status. -/
theorem background_job_tree (t0 : ℚ) (j : JobDraws)
    (hf0 : 0 ≤ j.uFetch) (hf1 : j.uFetch ≤ 1)
    (hp0 : 0 ≤ j.uProcess) (hp1 : j.uProcess ≤ 1)
    (hs0 : 0 ≤ j.uStore) (hs1 : j.uStore ≤ 1) :
    ∃ c1 c2 c3 r, (simulate_background_job t0 j).1 = [c1, c2, c3, r] ∧
      c1.name = "fetch-data" ∧ c2.name = "process-data" ∧
      c3.name = "store-results" ∧ r.name = "background-job" ∧
      getAttr r "job.name" = some (.str "data-processing") ∧
      c1.parent = some "background-job" ∧ c2.parent = some "background-job" ∧
      c3.parent = some "background-job" ∧ r.parent = none ∧
      c1.endTime ≤ c2.startTime ∧ c2.endTime ≤ c3.startTime ∧
      1/10 ≤ c1.endTime - c1.startTime ∧ c1.endTime - c1.startTime ≤ 3/10 ∧
      1/5 ≤ c2.endTime - c2.startTime ∧ c2.endTime - c2.startTime ≤ 1/2 ∧
      1/20 ≤ c3.endTime - c3.startTime ∧ c3.endTime - c3.startTime ≤ 3/20 ∧
      c1.status = .ok ∧ c2.status = .ok ∧ c3.status = .ok ∧
      r.status = .ok := by
  obtain ⟨h11, h12⟩ := uniform_mem (1/10) (3/10) j.uFetch (by norm_num) hf0 hf1
  obtain ⟨h21, h22⟩ := uniform_mem (1/5) (1/2) j.uProcess (by norm_num) hp0 hp1
  obtain ⟨h31, h32⟩ := uniform_mem (1/20) (3/20) j.uStore (by norm_num) hs0 hs1
  refine ⟨_, _, _, _, rfl, rfl, rfl, rfl, rfl, ?_, rfl, rfl, rfl, rfl,
    ?_, ?_, ?_, ?_, ?_, ?_, ?_, ?_, rfl, rfl, rfl, rfl⟩ <;>
    simp only [stepSpan, jobRootSpan, getAttr, List.find?,
      add_sub_cancel_left] <;>
    first
      | linarith
      | simp

/-- Witness for C4 at `t0 = 0` and the sample draws. -/
theorem background_job_tree_witness :
    ∃ c1 c2 c3 r, (simulate_background_job 0 jobDraws0).1 = [c1, c2, c3, r] ∧
      c1.name = "fetch-data" ∧ c2.name = "process-data" ∧
      c3.name = "store-results" ∧ r.name = "background-job" ∧
      getAttr r "job.name" = some (.str "data-processing") ∧
      c1.parent = some "background-job" ∧ c2.parent = some "background-job" ∧
      c3.parent = some "background-job" ∧ r.parent = none ∧
      c1.endTime ≤ c2.startTime ∧ c2.endTime ≤ c3.startTime ∧
      1/10 ≤ c1.endTime - c1.startTime ∧ c1.endTime - c1.startTime ≤ 3/10 ∧
      1/5 ≤ c2.endTime - c2.startTime ∧ c2.endTime - c2.startTime ≤ 1/2 ∧
      1/20 ≤ c3.endTime - c3.startTime ∧ c3.endTime - c3.startTime ≤ 3/20 ∧
      c1.status = .ok ∧ c2.status = .ok ∧ c3.status = .ok ∧
      r.status = .ok :=
  background_job_tree 0 jobDraws0 (by norm_num [jobDraws0])
    (by norm_num [jobDraws0]) (by norm_num [jobDraws0])
    (by norm_num [jobDraws0]) (by norm_num [jobDraws0])
    (by norm_num [jobDraws0])

/-- Claim C5: the api-call root's http.status_code attribute is 200 in
every run, in particular identical between any two runs, whether or not
the error draw injects an ERROR status. -/
theorem api_status_code_fixed (t0 t0' : ℚ) (d d' : ApiDraws) :
    ∃ c1 c2 r c1' c2' r', (simulate_api_call t0 d).1 = [c1, c2, r] ∧
      (simulate_api_call t0' d').1 = [c1', c2', r'] ∧
      getAttr r "http.status_code" = some (.int 200) ∧
      getAttr r' "http.status_code" = some (.int 200) ∧
      getAttr r "http.status_code" = getAttr r' "http.status_code" := by
  refine ⟨_, _, _, _, _, _, rfl, rfl, ?_, ?_, ?_⟩ <;>
    simp [apiRootSpan, apiRootAttrs, getAttr, List.find?]

/-- Claim C6: the db-query child carries db.system and db.statement, the
cache-lookup child carries a boolean cache.hit, the api-call root carries
http.method, http.url and http.status_code, and attribute keys are unique
within every span of both tree kinds. -/
theorem span_attr_presence (t0 tj : ℚ) (d : ApiDraws) (j : JobDraws) :
    ∃ c1 c2 r, (simulate_api_call t0 d).1 = [c1, c2, r] ∧
      getAttr c1 "db.system" = some (.str "postgresql") ∧
      getAttr c1 "db.statement" = some (.str "SELECT * FROM users") ∧
      (∃ b, getAttr c2 "cache.hit" = some (.bool b)) ∧
      getAttr r "http.method" = some (.str "GET") ∧
      getAttr r "http.url" = some (.str "/api/users") ∧
      getAttr r "http.status_code" = some (.int 200) ∧
      (c1.attributes.map Prod.fst).Nodup ∧
      (c2.attributes.map Prod.fst).Nodup ∧
      (r.attributes.map Prod.fst).Nodup ∧
      ((simulate_background_job tj j).1.all
        (fun s => decide ((s.attributes.map Prod.fst).Nodup))) = true := by
  refine ⟨_, _, _, rfl, ?_, ?_, ⟨choice [true, false] d.hitIdx, ?_⟩,
    ?_, ?_, ?_, ?_, ?_, ?_, ?_⟩ <;>
    simp [dbSpan, cacheSpan, apiRootSpan, apiRootAttrs, getAttr,
      List.find?, simulate_background_job, stepSpan, jobRootSpan]

/-- Claim C7: each RUNNING iteration selects the api-call scenario exactly
when the selection draw is below 0.7 and the background-job scenario
otherwise, runs the selected builder synchronously to completion (its full
span list is handed off and its final clock reached), then sleeps a
duration in [0.5s, 2s]. -/
theorem iteration_behaviour (t0 : ℚ) (d : IterDraws)
    (h0 : 0 ≤ d.uPace) (h1 : d.uPace ≤ 1) :
    (d.uSel < 7/10 →
      iteration t0 d = ((simulate_api_call t0 d.api).1,
        (simulate_api_call t0 d.api).2 + uniform (1/2) 2 d.uPace)) ∧
    (¬ d.uSel < 7/10 →
      iteration t0 d = ((simulate_background_job t0 d.job).1,
        (simulate_background_job t0 d.job).2 + uniform (1/2) 2 d.uPace)) ∧
    1/2 ≤ uniform (1/2) 2 d.uPace ∧ uniform (1/2) 2 d.uPace ≤ 2 := by
  obtain ⟨hp1, hp2⟩ := uniform_mem (1/2) 2 d.uPace (by norm_num) h0 h1
  refine ⟨fun h => ?_, fun h => ?_, hp1, hp2⟩
  · simp [iteration, iterationCancel, if_pos h, apiIterationCancel]
  · simp [iteration, iterationCancel, if_neg h, jobIterationCancel]

/-- Witness for C7 at `t0 = 0` and the sample draws. -/
theorem iteration_behaviour_witness :
    ((iterDraws0.uSel < 7/10 →
      iteration 0 iterDraws0 = ((simulate_api_call 0 iterDraws0.api).1,
        (simulate_api_call 0 iterDraws0.api).2
          + uniform (1/2) 2 iterDraws0.uPace)) ∧
    (¬ iterDraws0.uSel < 7/10 →
      iteration 0 iterDraws0 = ((simulate_background_job 0 iterDraws0.job).1,
        (simulate_background_job 0 iterDraws0.job).2
          + uniform (1/2) 2 iterDraws0.uPace)) ∧
    1/2 ≤ uniform (1/2) 2 iterDraws0.uPace ∧
    uniform (1/2) 2 iterDraws0.uPace ≤ 2) :=
  iteration_behaviour 0 iterDraws0 (by norm_num [iterDraws0])
    (by norm_num [iterDraws0])

/-- Claim C8: when the run is terminated by the cancellation signal
(KeyboardInterrupt), the exporter's flush/shutdown operation runs exactly
once, its outcome is observable in the run's result, and the driver
reaches its orderly STOPPED state before exit. -/
theorem shutdown_on_cancel (t0 : ℚ) (draws : ℕ → IterDraws) (ex : LoopExit)
    (fo : FlushOutcome) (h : ex.kind = .keyboardInterrupt) :
    (mainRun t0 draws ex fo).shutdownCalls = 1 ∧
    (mainRun t0 draws ex fo).flushReport = some fo ∧
    (mainRun t0 draws ex fo).reachedStopped = true := by
  obtain ⟨i, k, e, kind⟩ := ex
  cases kind
  · simp [mainRun]
  · simp at h

/-- Witness for C8: a concrete cancelled run. -/
theorem shutdown_on_cancel_witness :
    (mainRun 0 (fun _ => iterDraws0)
        ⟨0, 0, 0, .keyboardInterrupt⟩ .delivered).shutdownCalls = 1 ∧
    (mainRun 0 (fun _ => iterDraws0)
        ⟨0, 0, 0, .keyboardInterrupt⟩ .delivered).flushReport
      = some .delivered ∧
    (mainRun 0 (fun _ => iterDraws0)
        ⟨0, 0, 0, .keyboardInterrupt⟩ .delivered).reachedStopped = true :=
  shutdown_on_cancel 0 (fun _ => iterDraws0)
    ⟨0, 0, 0, .keyboardInterrupt⟩ .delivered rfl

/-- Claim C10: shutdown/flush is reached only on a KeyboardInterrupt: an
exit caused by any other exception invokes shutdown zero times, leaves no
flush report for the caller, and never reaches the orderly STOPPED
state. -/
theorem shutdown_only_on_interrupt (t0 : ℚ) (draws : ℕ → IterDraws)
    (ex : LoopExit) (fo : FlushOutcome) :
    (mainRun t0 draws ex fo).shutdownCalls
      = (if ex.kind = .keyboardInterrupt then 1 else 0) ∧
    ((mainRun t0 draws ex fo).flushReport = none ↔ ex.kind = .other) ∧
    ((mainRun t0 draws ex fo).reachedStopped = false ↔ ex.kind = .other) := by
  obtain ⟨i, k, e, kind⟩ := ex
  cases kind <;> simp [mainRun]

/-- Counterexample to claim C3: a cancellation delivered during the
db-query sleep of an api-call iteration reaches STOPPED having handed off
only the db-query child and the root — the cache-lookup span the
uninterrupted iteration would produce is never created, so the mid-flight
tree IS truncated. -/
theorem cancel_truncates_tree :
    (mainRun 0 (fun _ => iterDraws0)
        ⟨0, 0, 0, .keyboardInterrupt⟩ .delivered).reachedStopped = true ∧
    ((mainRun 0 (fun _ => iterDraws0)
        ⟨0, 0, 0, .keyboardInterrupt⟩ .delivered).spans.map Span.name)
      = ["db-query", "api-request"] ∧
    ((iteration 0 iterDraws0).1.map Span.name)
      = ["db-query", "cache-lookup", "api-request"] := by
  refine ⟨rfl, ?_, ?_⟩
  · simp [mainRun, runIters, iterationCancel, apiIterationCancel,
      iterDraws0, apiDraws0, dbSpan, apiRootCut]
  · simp [iteration, iterationCancel, apiIterationCancel, iterDraws0,
      apiDraws0, simulate_api_call, dbSpan, cacheSpan, apiRootSpan]

/-- Claim C3 as amended: cancellation is observed at the sleep suspension
points, not only at iteration boundaries.  A cancellation delivered during
the inter-iteration pacing sleep leaves that iteration's tree complete; one
delivered during a sleep inside tree construction truncates the tree — the
spans already open are closed at the interruption instant (each still with
end ≥ start) and handed off, but the spans not yet started are never
created; in every cancelled run shutdown still runs and the driver reaches
STOPPED. -/
theorem cancel_at_sleep_points (t0 uPace e : ℚ) (d : ApiDraws)
    (he : 0 ≤ e) (dr : ℕ → IterDraws) (ex : LoopExit) (fo : FlushOutcome)
    (hk : ex.kind = .keyboardInterrupt) :
    (apiIterationCancel t0 d uPace (some (2, e))).1
      = (simulate_api_call t0 d).1 ∧
    ((apiIterationCancel t0 d uPace (some (0, e))).1.map Span.name
      = ["db-query", "api-request"]) ∧
    (∀ s ∈ (apiIterationCancel t0 d uPace (some (0, e))).1,
      s.startTime ≤ s.endTime) ∧
    (mainRun t0 dr ex fo).shutdownCalls = 1 ∧
    (mainRun t0 dr ex fo).reachedStopped = true := by
  obtain ⟨i, k, e', kind⟩ := ex
  cases kind
  · refine ⟨rfl, by simp [apiIterationCancel, dbSpan, apiRootCut], ?_,
      by simp [mainRun], by simp [mainRun]⟩
    intro s hs
    simp [apiIterationCancel] at hs
    rcases hs with h | h <;> subst h <;>
      simp [dbSpan, apiRootCut] <;> linarith
  · simp at hk

/-- Witness for the amended C3 at concrete draws. -/
theorem cancel_at_sleep_points_witness :
    (apiIterationCancel 0 apiDraws0 0 (some (2, 0))).1
      = (simulate_api_call 0 apiDraws0).1 ∧
    ((apiIterationCancel 0 apiDraws0 0 (some (0, 0))).1.map Span.name
      = ["db-query", "api-request"]) ∧
    (∀ s ∈ (apiIterationCancel 0 apiDraws0 0 (some (0, 0))).1,
      s.startTime ≤ s.endTime) ∧
    (mainRun 0 (fun _ => iterDraws0)
        ⟨1, 3, 0, .keyboardInterrupt⟩ .delivered).shutdownCalls = 1 ∧
    (mainRun 0 (fun _ => iterDraws0)
        ⟨1, 3, 0, .keyboardInterrupt⟩ .delivered).reachedStopped = true :=
  cancel_at_sleep_points 0 0 0 apiDraws0 (by norm_num)
    (fun _ => iterDraws0) ⟨1, 3, 0, .keyboardInterrupt⟩ .delivered rfl
